import Mathlib

/-!
Verification of the aws-inventory repository against its specification.

The repository consists of two Python files:
  - utils.py: a YAML configuration loader (load_yaml);
  - aws_inventory.py: the AWSInventory class with one listing method per
    resource kind (EC2 instances, EBS volumes, EBS snapshots, S3 buckets,
    RDS instances, EKS clusters), a save_to_excel report writer, and an
    orchestration entry point that iterates three hard-coded regions,
    concatenates per-region tables and writes one workbook.

The shallow embedding below models pandas DataFrames as records (association
lists from column name to scalar value) plus a column list inferred from the
records, exactly as pd.DataFrame(list_of_dicts) infers columns from the dict
keys in first-seen order.  Python dictionary lookups that can raise KeyError
are modelled with Except; each listing method is a pure function of the
provider response it consumes.
-/

/-- Scalar cell values occurring in the tables (strings and integers). -/
inductive Val where
  | str : String → Val
  | int : Int → Val
deriving DecidableEq, Repr

/-- A flattened resource record: a flat mapping from column name to scalar,
in insertion order, as built by the dict literals in the listing methods. -/
abbrev Rec := List (String × Val)

/-- First value stored under key k, like Python dict access on a record. -/
def getField (r : Rec) (k : String) : Option Val :=
  (r.find? (fun p => p.1 == k)).map Prod.snd

/-- Order-preserving de-duplication of column names, matching how pandas
collects the union of dict keys in first-seen order. -/
def dedupCols (l : List String) : List String :=
  l.foldl (fun acc c => if c ∈ acc then acc else acc ++ [c]) []

/-- A pandas DataFrame: column list plus ordered rows (records). -/
structure DataFrame where
  columns : List String
  rows : List Rec
deriving DecidableEq, Repr

/-- pd.DataFrame(records): columns are inferred from the records, so an
empty record list yields an empty column list. -/
def pdDataFrame (recs : List Rec) : DataFrame :=
  ⟨dedupCols (recs.flatMap (fun r => r.map Prod.fst)), recs⟩

/-- pd.DataFrame() with no argument: zero columns, zero rows. -/
def emptyDF : DataFrame := ⟨[], []⟩

/-- pd.concat([a, b], ignore_index=True): rows of a then rows of b, columns
the ordered union of both column lists. -/
def pdConcat (a b : DataFrame) : DataFrame :=
  ⟨dedupCols (a.columns ++ b.columns), a.rows ++ b.rows⟩

/-- Sequence a fallible flattening over response items the way the Python
for-loops do: the first raised KeyError aborts the whole listing. -/
def collectRecords (f : α → Except String Rec) : List α → Except String (List Rec)
  | [] => Except.ok []
  | x :: xs =>
    match f x with
    | Except.error e => Except.error e
    | Except.ok r =>
      match collectRecords f xs with
      | Except.error e => Except.error e
      | Except.ok rs => Except.ok (r :: rs)

/-! ## Configuration loader (utils.load_yaml and AWSInventory constructor) -/

/-- A well-formed parsed YAML configuration document: the key-value mapping
yaml.load returns for a mapping document. -/
abbrev ConfigDoc := List (String × String)

/-- Python dict subscription d[k]: the value when the key is present. -/
def lookupKey (d : ConfigDoc) (k : String) : Option String :=
  (d.find? (fun p => p.1 == k)).map Prod.snd

/-- Python dict subscription as a fallible operation: raises KeyError when
the key is absent, as aws_credentials['AWS_ACCESS_KEY_ID'] does. -/
def dictGet (d : ConfigDoc) (k : String) : Except String String :=
  match lookupKey d k with
  | some v => Except.ok v
  | none => Except.error ("KeyError: " ++ k)

/-- The credential pair held by AWSInventory after construction. -/
structure AWSInventory where
  aws_access_key_id : String
  aws_secret_access_key : String
deriving DecidableEq, Repr

/-- AWSInventory.__init__: load the YAML document and subscript the two
required keys, propagating KeyError when either is missing. -/
def AWSInventory.init (cfg : ConfigDoc) : Except String AWSInventory :=
  match dictGet cfg "AWS_ACCESS_KEY_ID" with
  | Except.error e => Except.error e
  | Except.ok kid =>
    match dictGet cfg "AWS_SECRET_ACCESS_KEY" with
    | Except.error e => Except.error e
    | Except.ok secret => Except.ok ⟨kid, secret⟩

/-! ## EC2 instance listing -/

/-- One EC2 tag, a dict with Key and Value entries. -/
structure Tag where
  key : String
  value : String
deriving DecidableEq, Repr

/-- One instance dict from describe_instances.  The Tags entry is optional:
AWS omits it for untagged instances, and instance['Tags'] then raises
KeyError; all other consumed fields are always present in the response. -/
structure EC2Instance where
  tags : Option (List Tag)
  instanceId : String
  instanceType : String
  platformDetails : String
  stateName : String
deriving DecidableEq, Repr

/-- One reservation dict: a list of instances. -/
structure Reservation where
  instances : List EC2Instance
deriving DecidableEq, Repr

/-- The describe_instances response: a list of reservations. -/
structure DescribeInstancesResponse where
  reservations : List Reservation
deriving DecidableEq, Repr

/-- next((tag['Value'] for tag in tags if tag['Key'] == 'Name'), ''):
the first Name tag value, defaulting to the empty string. -/
def nameFromTags (tags : List Tag) : String :=
  match tags.find? (fun t => t.key == "Name") with
  | some t => t.value
  | none => ""

/-- Flatten one instance into its record; raises KeyError when the Tags
entry is absent, because instance['Tags'] is evaluated unconditionally. -/
def instanceRecord (region : String) (i : EC2Instance) : Except String Rec :=
  match i.tags with
  | none => Except.error "KeyError: Tags"
  | some ts => Except.ok
      [("Name", Val.str (nameFromTags ts)),
       ("Instance ID", Val.str i.instanceId),
       ("Type", Val.str i.instanceType),
       ("OS", Val.str i.platformDetails),
       ("Region", Val.str region),
       ("State", Val.str i.stateName)]

/-- AWSInventory.list_ec2_instances: flatten every instance of every
reservation, in response order, into a DataFrame. -/
def list_ec2_instances (region : String) (resp : DescribeInstancesResponse) :
    Except String DataFrame :=
  match collectRecords (instanceRecord region)
      (resp.reservations.flatMap Reservation.instances) with
  | Except.error e => Except.error e
  | Except.ok recs => Except.ok (pdDataFrame recs)

/-! ## EBS volume listing -/

/-- One volume dict from describe_volumes. -/
structure Volume where
  volumeId : String
  size : Int
  state : String
deriving DecidableEq, Repr

/-- The describe_volumes response. -/
structure VolumesResponse where
  volumes : List Volume
deriving DecidableEq, Repr

/-- Flatten one volume into its record. -/
def volumeRecord (region : String) (v : Volume) : Rec :=
  [("Volume ID", Val.str v.volumeId),
   ("Size", Val.int v.size),
   ("State", Val.str v.state),
   ("Region", Val.str region)]

/-- AWSInventory.list_ec2_volumes. -/
def list_ec2_volumes (region : String) (resp : VolumesResponse) : DataFrame :=
  pdDataFrame (resp.volumes.map (volumeRecord region))

/-! ## EBS snapshot listing -/

/-- One snapshot as held provider-side, with its owning account, so that
the OwnerIds scoping of describe_snapshots can be expressed. -/
structure ProviderSnapshot where
  snapshotId : String
  volumeSize : Int
  state : String
  ownerId : String
deriving DecidableEq, Repr

/-- Provider semantics of the describe_snapshots endpoint: with no OwnerIds
parameter every accessible snapshot (owned or shared) is returned; with
OwnerIds the result is restricted to the named owners, the literal "self"
standing for the caller's own account. -/
def describeSnapshotsEndpoint (caller : String) (ownerIds : Option (List String))
    (accessible : List ProviderSnapshot) : List ProviderSnapshot :=
  match ownerIds with
  | none => accessible
  | some ids =>
      accessible.filter
        (fun s => (ids.map (fun o => if o == "self" then caller else o)).contains s.ownerId)

/-- Flatten one snapshot into its record. -/
def snapshotRecord (region : String) (s : ProviderSnapshot) : Rec :=
  [("Snapshot ID", Val.str s.snapshotId),
   ("Volume Size", Val.int s.volumeSize),
   ("State", Val.str s.state),
   ("Region", Val.str region)]

/-- AWSInventory.list_ec2_snapshots: calls describe_snapshots with
OwnerIds=['self'] (the literal from the source) and flattens the result. -/
def list_ec2_snapshots (caller : String) (region : String)
    (accessible : List ProviderSnapshot) : DataFrame :=
  pdDataFrame
    ((describeSnapshotsEndpoint caller (some ["self"]) accessible).map (snapshotRecord region))

/-! ## S3, RDS and EKS listings -/

/-- The list_buckets response: bucket names. -/
structure BucketsResponse where
  buckets : List String
deriving DecidableEq, Repr

/-- AWSInventory.list_s3_buckets. -/
def list_s3_buckets (resp : BucketsResponse) : DataFrame :=
  pdDataFrame (resp.buckets.map (fun n => [("Bucket Name", Val.str n)]))

/-- One DB instance dict from describe_db_instances. -/
structure RDSInstance where
  dbInstanceIdentifier : String
  engine : String
deriving DecidableEq, Repr

/-- The describe_db_instances response. -/
structure RDSResponse where
  dbInstances : List RDSInstance
deriving DecidableEq, Repr

/-- AWSInventory.list_rds_instances. -/
def list_rds_instances (resp : RDSResponse) : DataFrame :=
  pdDataFrame (resp.dbInstances.map
    (fun i => [("DB Instance Identifier", Val.str i.dbInstanceIdentifier),
               ("DB Engine", Val.str i.engine)]))

/-- The list_clusters response: cluster names. -/
structure ClustersResponse where
  clusters : List String
deriving DecidableEq, Repr

/-- AWSInventory.list_eks_clusters. -/
def list_eks_clusters (resp : ClustersResponse) : DataFrame :=
  pdDataFrame (resp.clusters.map (fun n => [("Cluster Name", Val.str n)]))

/-- The resource kinds the collector enumerates. -/
inductive ResourceKind where
  | ec2Instances | ebsVolumes | ebsSnapshots | s3Buckets | rdsInstances | eksClusters
deriving DecidableEq, Repr

/-- The OwnerIds parameter each listing method passes to its enumeration
call, read off the six call sites: only describe_snapshots is scoped. -/
def requestOwnerIds : ResourceKind → Option (List String)
  | ResourceKind.ebsSnapshots => some ["self"]
  | _ => none

/-! ## Report writer (AWSInventory.save_to_excel) -/

/-- One worksheet: a header row and the materialized cell grid.  A none
cell is a NaN hole for a row that lacks one of the frame's columns. -/
structure Sheet where
  header : List String
  cells : List (List (Option Val))
deriving DecidableEq, Repr

/-- df.to_excel(writer, sheet_name) with default arguments: the sheet gets
a leading default row-index column (blank header, values 0,1,2,...) and the
frame's rows in order, each aligned to the frame's column list. -/
def dfToSheet (df : DataFrame) : Sheet :=
  ⟨"" :: df.columns,
   df.rows.enum.map
     (fun p => some (Val.int (Int.ofNat p.1)) :: df.columns.map (fun c => getField p.2 c))⟩

/-- The workbook: worksheets in write order, keyed by sheet name. -/
structure Workbook where
  sheets : List (String × Sheet)
deriving DecidableEq, Repr

/-- AWSInventory.save_to_excel: one worksheet per dictionary entry, the key
taken verbatim as the sheet name, entries in dictionary insertion order. -/
def save_to_excel (dfDict : List (String × DataFrame)) : Workbook :=
  ⟨dfDict.map (fun p => (p.1, dfToSheet p.2))⟩

/-! ### File-handle discipline of save_to_excel

The with-statement around ExcelWriter is modelled as an event trace: the
context manager emits an open event, runs the body, and emits a close event
whether or not the body raised; the raised error, if any, is re-propagated
afterwards.  Serialization of a sheet may fail, modelled by a predicate
giving the sheets whose to_excel call raises. -/

/-- Events on the output file handle. -/
inductive FileEvent where
  | opened
  | wroteSheet (name : String)
  | closed
deriving DecidableEq, Repr

/-- The body of the with-block: write sheets in order until one fails. -/
def writeSheetsBody (raises : String → Bool) :
    List (String × DataFrame) → List FileEvent × Option String
  | [] => ([], none)
  | (n, _) :: rest =>
      if raises n then ([], some ("SerializationError: " ++ n))
      else
        let r := writeSheetsBody raises rest
        (FileEvent.wroteSheet n :: r.1, r.2)

/-- Python with-statement semantics for the writer: open, run the body,
close on every exit path, then propagate the body's error if any. -/
def pythonWith (body : List FileEvent × Option String) : List FileEvent × Option String :=
  (FileEvent.opened :: body.1 ++ [FileEvent.closed], body.2)

/-- The file-handle trace of one save_to_excel execution. -/
def save_to_excel_trace (raises : String → Bool) (dfDict : List (String × DataFrame)) :
    List FileEvent × Option String :=
  pythonWith (writeSheetsBody raises dfDict)

/-! ## Orchestration entry point (__main__) -/

/-- The per-region provider responses a run observes, one field per
enumeration call the entry point issues. -/
structure Providers where
  instancesResp : String → DescribeInstancesResponse
  volumesResp : String → VolumesResponse
  snapshotsAccessible : String → List ProviderSnapshot
  rdsResp : String → RDSResponse
  bucketsResp : BucketsResponse

/-- The hard-coded region list of the entry point. -/
def mainRegions : List String := ["us-east-1", "eu-west-1", "sa-east-1"]

/-- The four cross-region accumulator frames of the main loop (the EKS
accumulator stays empty: its collection calls are commented out). -/
structure MainAcc where
  ec2 : DataFrame
  rds : DataFrame
  vols : DataFrame
  snaps : DataFrame
deriving DecidableEq, Repr

/-- One iteration of the main loop body for one region: list then concat
each resource kind, in source order (EC2, RDS, volumes, snapshots). -/
def mainStep (caller : String) (p : Providers) (acc : MainAcc) (region : String) :
    Except String MainAcc :=
  match list_ec2_instances region (p.instancesResp region) with
  | Except.error e => Except.error e
  | Except.ok dfEc2 => Except.ok
      ⟨pdConcat acc.ec2 dfEc2,
       pdConcat acc.rds (list_rds_instances (p.rdsResp region)),
       pdConcat acc.vols (list_ec2_volumes region (p.volumesResp region)),
       pdConcat acc.snaps (list_ec2_snapshots caller region (p.snapshotsAccessible region))⟩

/-- The for-loop of the entry point over the region list, threading the
four accumulator frames; a raised KeyError aborts the whole run. -/
def mainLoop (caller : String) (p : Providers) (acc : MainAcc) :
    List String → Except String MainAcc
  | [] => Except.ok acc
  | r :: rest =>
    match mainStep caller p acc r with
    | Except.error e => Except.error e
    | Except.ok acc2 => mainLoop caller p acc2 rest

/-- The df_dict the entry point assembles after the loop: five entries in
source order; the EKS entry is commented out in the source. -/
def run_main_dict (caller : String) (p : Providers) :
    Except String (List (String × DataFrame)) :=
  match mainLoop caller p ⟨emptyDF, emptyDF, emptyDF, emptyDF⟩ mainRegions with
  | Except.error e => Except.error e
  | Except.ok acc => Except.ok
      [("EC2", acc.ec2),
       ("RDS", acc.rds),
       ("EC2-Volumes", acc.vols),
       ("EC2-Snapshots", acc.snaps),
       ("S3-Buckets", list_s3_buckets p.bucketsResp)]

/-- One full run of the entry point: assemble the table mapping and hand it
to save_to_excel. -/
def runMain (caller : String) (p : Providers) : Except String Workbook :=
  match run_main_dict caller p with
  | Except.error e => Except.error e
  | Except.ok d => Except.ok (save_to_excel d)

/-- A run against a provider with no resources at all, used as a concrete
evaluation point. -/
def trivialProviders : Providers :=
  ⟨fun _ => ⟨[]⟩, fun _ => ⟨[]⟩, fun _ => [], fun _ => ⟨[]⟩, ⟨[]⟩⟩

/-! ## Helper lemmas -/

/-- Every record of a successful collectRecords run comes from some input
item whose flattening succeeded with exactly that record. -/
theorem collectRecords_ok_mem {f : α → Except String Rec} :
    ∀ {l : List α} {ys : List Rec}, collectRecords f l = Except.ok ys →
      ∀ y ∈ ys, ∃ x ∈ l, f x = Except.ok y := by
  intro l
  induction l with
  | nil =>
    intro ys h y hy
    rw [collectRecords] at h
    cases h
    simp at hy
  | cons x xs ih =>
    intro ys h y hy
    rw [collectRecords] at h
    cases hx : f x with
    | error e => rw [hx] at h; cases h
    | ok r =>
      rw [hx] at h
      cases hxs : collectRecords f xs with
      | error e => rw [hxs] at h; cases h
      | ok rs =>
        rw [hxs] at h
        cases h
        rcases List.mem_cons.mp hy with hy | hy
        · exact ⟨x, List.mem_cons_self x xs, hy ▸ hx⟩
        · rcases ih hxs y hy with ⟨x2, hx2, hfx2⟩
          exact ⟨x2, List.mem_cons_of_mem x hx2, hfx2⟩

/-- If flattening any input item raises, the whole collection raises. -/
theorem collectRecords_error_of_mem {f : α → Except String Rec} :
    ∀ {l : List α} {x : α} {e : String}, x ∈ l → f x = Except.error e →
      ∃ e2, collectRecords f l = Except.error e2 := by
  intro l
  induction l with
  | nil => intro x e hx; simp at hx
  | cons a as ih =>
    intro x e hx hfx
    rw [collectRecords]
    cases ha : f a with
    | error e2 => exact ⟨e2, rfl⟩
    | ok r =>
      rcases List.mem_cons.mp hx with hx | hx
      · subst hx; rw [hfx] at ha; cases ha
      · rcases ih hx hfx with ⟨e2, h2⟩
        exact ⟨e2, by rw [h2]⟩

/-! ## Claim theorems -/

/-- Claim C1, counterexample: for the empty describe_volumes response the
flattening returns a table with zero rows but also with an empty column
set, not the fixed column set Volume ID, Size, State, Region the claim
requires: pandas infers columns from the records and there are none. -/
theorem c1_counterexample :
    (list_ec2_volumes "us-east-1" ⟨[]⟩).rows = [] ∧
    (list_ec2_volumes "us-east-1" ⟨[]⟩).columns = [] ∧
    (list_ec2_volumes "us-east-1" ⟨[]⟩).columns ≠ ["Volume ID", "Size", "State", "Region"] := by
  refine ⟨rfl, rfl, ?_⟩
  decide

/-- Claim C1, amended: for every resource kind, a provider response with
zero items makes the flattening operation return a table with zero rows
and an empty column set (the fixed column set appears only when at least
one item is present, because pd.DataFrame infers columns from records). -/
theorem c1_amended_empty_response_empty_table (region caller : String) :
    list_ec2_instances region ⟨[]⟩ = Except.ok ⟨[], []⟩ ∧
    list_ec2_volumes region ⟨[]⟩ = ⟨[], []⟩ ∧
    list_ec2_snapshots caller region [] = ⟨[], []⟩ ∧
    list_s3_buckets ⟨[]⟩ = ⟨[], []⟩ ∧
    list_rds_instances ⟨[]⟩ = ⟨[], []⟩ ∧
    list_eks_clusters ⟨[]⟩ = ⟨[], []⟩ :=
  ⟨rfl, rfl, rfl, rfl, rfl, rfl⟩

/-- Claim C3: a compute instance whose tag list is present but contains no
Name tag flattens successfully, and its Name field is the empty string. -/
theorem c3_missing_name_tag_defaults_empty (region : String) (i : EC2Instance)
    (ts : List Tag) (htags : i.tags = some ts) (hn : ∀ t ∈ ts, t.key ≠ "Name") :
    ∃ rec, instanceRecord region i = Except.ok rec ∧
      getField rec "Name" = some (Val.str "") := by
  have hfind : ts.find? (fun t => t.key == "Name") = none := by
    rw [List.find?_eq_none]
    intro t ht
    simpa using hn t ht
  have hname : nameFromTags ts = "" := by rw [nameFromTags, hfind]
  refine ⟨[("Name", Val.str (nameFromTags ts)),
           ("Instance ID", Val.str i.instanceId),
           ("Type", Val.str i.instanceType),
           ("OS", Val.str i.platformDetails),
           ("Region", Val.str region),
           ("State", Val.str i.stateName)], ?_, ?_⟩
  · rw [instanceRecord, htags]
  · show some (Val.str (nameFromTags ts)) = some (Val.str "")
    rw [hname]

/-- Witness for C3 at a concrete instance tagged only with env=prod. -/
theorem c3_missing_name_tag_defaults_empty_witness :
    ∃ rec, instanceRecord "us-east-1"
        ⟨some [⟨"env", "prod"⟩], "i-1", "t2.micro", "Linux/UNIX", "running"⟩ = Except.ok rec ∧
      getField rec "Name" = some (Val.str "") :=
  c3_missing_name_tag_defaults_empty "us-east-1" _ [⟨"env", "prod"⟩] rfl (by decide)

/-- Claim C4: the region-by-region concatenation the entry point performs
appends the second table's rows after the first table's rows, preserving
both input orders, and the row counts add. -/
theorem c4_concat_appends_rows (a b : DataFrame) :
    (pdConcat a b).rows = a.rows ++ b.rows ∧
    (pdConcat a b).rows.length = a.rows.length + b.rows.length := by
  refine ⟨rfl, ?_⟩
  simp [pdConcat]

/-- Claim C5: for every well-formed configuration document carrying both
required keys, the constructor returns exactly the literal values stored
under those keys. -/
theorem c5_config_loader_literal_values (cfg : ConfigDoc) (kid secret : String)
    (h1 : lookupKey cfg "AWS_ACCESS_KEY_ID" = some kid)
    (h2 : lookupKey cfg "AWS_SECRET_ACCESS_KEY" = some secret) :
    AWSInventory.init cfg = Except.ok ⟨kid, secret⟩ := by
  have e1 : dictGet cfg "AWS_ACCESS_KEY_ID" = Except.ok kid := by rw [dictGet, h1]
  have e2 : dictGet cfg "AWS_SECRET_ACCESS_KEY" = Except.ok secret := by rw [dictGet, h2]
  rw [AWSInventory.init, e1, e2]

/-- Witness for C5 at a concrete two-key document. -/
theorem c5_config_loader_literal_values_witness :
    AWSInventory.init [("AWS_ACCESS_KEY_ID", "AKIA_TEST"), ("AWS_SECRET_ACCESS_KEY", "secret_test")]
      = Except.ok ⟨"AKIA_TEST", "secret_test"⟩ :=
  c5_config_loader_literal_values _ "AKIA_TEST" "secret_test" rfl rfl

/-- Claim C6: when either required key is absent from the configuration
document, construction raises a key-lookup failure. -/
theorem c6_missing_key_raises (cfg : ConfigDoc)
    (h : lookupKey cfg "AWS_ACCESS_KEY_ID" = none ∨
         lookupKey cfg "AWS_SECRET_ACCESS_KEY" = none) :
    ∃ e, AWSInventory.init cfg = Except.error e := by
  rcases h with h | h
  · have e1 : dictGet cfg "AWS_ACCESS_KEY_ID" = Except.error "KeyError: AWS_ACCESS_KEY_ID" := by
      rw [dictGet, h]; rfl
    exact ⟨_, by rw [AWSInventory.init, e1]⟩
  · have e2 : dictGet cfg "AWS_SECRET_ACCESS_KEY" =
        Except.error "KeyError: AWS_SECRET_ACCESS_KEY" := by
      rw [dictGet, h]; rfl
    cases h1 : lookupKey cfg "AWS_ACCESS_KEY_ID" with
    | none =>
      have e1 : dictGet cfg "AWS_ACCESS_KEY_ID" = Except.error "KeyError: AWS_ACCESS_KEY_ID" := by
        rw [dictGet, h1]; rfl
      exact ⟨_, by rw [AWSInventory.init, e1]⟩
    | some v =>
      have e1 : dictGet cfg "AWS_ACCESS_KEY_ID" = Except.ok v := by rw [dictGet, h1]
      exact ⟨_, by rw [AWSInventory.init, e1, e2]⟩

/-- Witness for C6 at a document missing the secret key. -/
theorem c6_missing_key_raises_witness :
    ∃ e, AWSInventory.init [("AWS_ACCESS_KEY_ID", "AKIA_TEST")] = Except.error e :=
  c6_missing_key_raises _ (Or.inr rfl)

/-- Claim C8: on every execution of the report writer, for every choice of
which sheet serializations fail, the file-handle trace both opens the
handle and ends by closing it: no exit path leaves the handle open. -/
theorem c8_writer_closes_handle (raises : String → Bool)
    (dfDict : List (String × DataFrame)) :
    (save_to_excel_trace raises dfDict).1.getLast? = some FileEvent.closed ∧
    FileEvent.opened ∈ (save_to_excel_trace raises dfDict).1 := by
  constructor
  · show (FileEvent.opened :: ((writeSheetsBody raises dfDict).1 ++ [FileEvent.closed])).getLast?
        = some FileEvent.closed
    rw [← List.cons_append, List.getLast?_concat]
  · exact List.mem_cons_self _ _

/-- Claim C2, counterexample: running the entry point against a provider
with no resources yields a workbook with exactly five worksheets, named
EC2, RDS, EC2-Volumes, EC2-Snapshots, S3-Buckets; there is no sixth EKS
worksheet, because the EKS collection and the EKS dictionary entry are
commented out in the source. -/
theorem c2_counterexample :
    (runMain "111122223333" trivialProviders).map (fun wb => wb.sheets.map Prod.fst)
      = Except.ok ["EC2", "RDS", "EC2-Volumes", "EC2-Snapshots", "S3-Buckets"] ∧
    (runMain "111122223333" trivialProviders).map (fun wb => wb.sheets.length)
      = Except.ok 5 ∧
    "EKS" ∉ ["EC2", "RDS", "EC2-Volumes", "EC2-Snapshots", "S3-Buckets"] :=
  ⟨rfl, rfl, by decide⟩

/-- Claim C2, amended: whenever the entry point's table assembly succeeds,
the run produces exactly the save_to_excel workbook of the assembled
mapping, which has one worksheet per entry with the sheet name taken
verbatim as the mapping key in mapping order, each worksheet holding its
table with rows and columns in order plus the default row-index column;
the mapping has the five keys EC2, RDS, EC2-Volumes, EC2-Snapshots,
S3-Buckets (the EKS sheet is disabled in the source). -/
theorem c2_amended_workbook_sheets (caller : String) (p : Providers)
    (d : List (String × DataFrame)) (h : run_main_dict caller p = Except.ok d) :
    runMain caller p = Except.ok (save_to_excel d) ∧
    (save_to_excel d).sheets = d.map (fun pr => (pr.1, dfToSheet pr.2)) ∧
    d.map Prod.fst = ["EC2", "RDS", "EC2-Volumes", "EC2-Snapshots", "S3-Buckets"] := by
  refine ⟨by rw [runMain, h], rfl, ?_⟩
  rw [run_main_dict] at h
  cases hloop : mainLoop caller p ⟨emptyDF, emptyDF, emptyDF, emptyDF⟩ mainRegions with
  | error e => rw [hloop] at h; cases h
  | ok acc =>
    rw [hloop] at h
    cases h
    rfl

/-- Witness for C2 (amended) at the resource-free provider. -/
theorem c2_amended_workbook_sheets_witness :
    runMain "111122223333" trivialProviders = Except.ok (save_to_excel
      [("EC2", ⟨[], []⟩), ("RDS", ⟨[], []⟩), ("EC2-Volumes", ⟨[], []⟩),
       ("EC2-Snapshots", ⟨[], []⟩), ("S3-Buckets", ⟨[], []⟩)]) ∧
    (save_to_excel
      [("EC2", ⟨[], []⟩), ("RDS", ⟨[], []⟩), ("EC2-Volumes", ⟨[], []⟩),
       ("EC2-Snapshots", ⟨[], []⟩), ("S3-Buckets", ⟨[], []⟩)]).sheets =
      ([("EC2", (⟨[], []⟩ : DataFrame)), ("RDS", ⟨[], []⟩), ("EC2-Volumes", ⟨[], []⟩),
        ("EC2-Snapshots", ⟨[], []⟩), ("S3-Buckets", ⟨[], []⟩)]).map
        (fun pr => (pr.1, dfToSheet pr.2)) ∧
    ([("EC2", (⟨[], []⟩ : DataFrame)), ("RDS", ⟨[], []⟩), ("EC2-Volumes", ⟨[], []⟩),
      ("EC2-Snapshots", ⟨[], []⟩), ("S3-Buckets", ⟨[], []⟩)]).map Prod.fst =
      ["EC2", "RDS", "EC2-Volumes", "EC2-Snapshots", "S3-Buckets"] :=
  c2_amended_workbook_sheets "111122223333" trivialProviders
    [("EC2", ⟨[], []⟩), ("RDS", ⟨[], []⟩), ("EC2-Volumes", ⟨[], []⟩),
     ("EC2-Snapshots", ⟨[], []⟩), ("S3-Buckets", ⟨[], []⟩)] rfl

/-- Claim C7: describe_snapshots is issued with OwnerIds=['self'], so every
snapshot the listing consumes is owned by the caller's own account and
every flattened row stems from a caller-owned snapshot; the five other
resource-kind call sites pass no owner scoping at all. -/
theorem c7_snapshots_scoped_to_caller (caller region : String)
    (accessible : List ProviderSnapshot) :
    (∀ s ∈ describeSnapshotsEndpoint caller (some ["self"]) accessible,
      s.ownerId = caller) ∧
    (∀ row ∈ (list_ec2_snapshots caller region accessible).rows,
      ∃ s ∈ accessible, s.ownerId = caller ∧ row = snapshotRecord region s) ∧
    requestOwnerIds ResourceKind.ebsSnapshots = some ["self"] ∧
    requestOwnerIds ResourceKind.ec2Instances = none ∧
    requestOwnerIds ResourceKind.ebsVolumes = none ∧
    requestOwnerIds ResourceKind.s3Buckets = none ∧
    requestOwnerIds ResourceKind.rdsInstances = none ∧
    requestOwnerIds ResourceKind.eksClusters = none := by
  have howner : ∀ s ∈ describeSnapshotsEndpoint caller (some ["self"]) accessible,
      s.ownerId = caller := by
    intro s hs
    rw [describeSnapshotsEndpoint] at hs
    have hc := (List.mem_filter.mp hs).2
    simpa using hc
  refine ⟨howner, ?_, rfl, rfl, rfl, rfl, rfl, rfl⟩
  intro row hrow
  have hrow2 : row ∈ (describeSnapshotsEndpoint caller (some ["self"]) accessible).map
      (snapshotRecord region) := hrow
  rcases List.mem_map.mp hrow2 with ⟨s, hs, heq⟩
  exact ⟨s, List.mem_of_mem_filter hs, howner s hs, heq.symm⟩

/-- Witness for C7: a concrete caller-owned snapshot surviving the scoped
enumeration indeed carries the caller's account id. -/
theorem c7_snapshots_scoped_to_caller_witness :
    (⟨"snap-1", 8, "completed", "111122223333"⟩ : ProviderSnapshot).ownerId
      = "111122223333" :=
  (c7_snapshots_scoped_to_caller "111122223333" "us-east-1"
      [⟨"snap-1", 8, "completed", "111122223333"⟩]).1
    ⟨"snap-1", 8, "completed", "111122223333"⟩ (by decide)

/-- Claim C9: an instance whose Tags entry is absent altogether makes the
whole instance listing raise a KeyError, because instance['Tags'] is
subscripted unconditionally before the Name default can apply. -/
theorem c9_absent_tags_raises (region : String) (resp : DescribeInstancesResponse)
    (i : EC2Instance) (hmem : i ∈ resp.reservations.flatMap Reservation.instances)
    (htags : i.tags = none) :
    ∃ e, list_ec2_instances region resp = Except.error e := by
  have hrec : instanceRecord region i = Except.error "KeyError: Tags" := by
    rw [instanceRecord, htags]
  rcases collectRecords_error_of_mem hmem hrec with ⟨e2, h2⟩
  exact ⟨e2, by rw [list_ec2_instances, h2]⟩

/-- Witness for C9 at a response holding one untagged instance. -/
theorem c9_absent_tags_raises_witness :
    ∃ e, list_ec2_instances "us-east-1"
      ⟨[⟨[⟨none, "i-1", "t2.micro", "Linux/UNIX", "running"⟩]⟩]⟩ = Except.error e :=
  c9_absent_tags_raises "us-east-1" ⟨[⟨[⟨none, "i-1", "t2.micro", "Linux/UNIX", "running"⟩]⟩]⟩
    ⟨none, "i-1", "t2.micro", "Linux/UNIX", "running"⟩ (by decide) rfl

/-- Claim C10: every row produced by the per-region instance, volume and
snapshot listings carries the region argument in its Region field. -/
theorem c10_region_field_equals_argument (region caller : String)
    (iresp : DescribeInstancesResponse) (vresp : VolumesResponse)
    (accessible : List ProviderSnapshot) (df : DataFrame)
    (hok : list_ec2_instances region iresp = Except.ok df) :
    (∀ row ∈ df.rows, getField row "Region" = some (Val.str region)) ∧
    (∀ row ∈ (list_ec2_volumes region vresp).rows,
      getField row "Region" = some (Val.str region)) ∧
    (∀ row ∈ (list_ec2_snapshots caller region accessible).rows,
      getField row "Region" = some (Val.str region)) := by
  refine ⟨?_, ?_, ?_⟩
  · intro row hrow
    rw [list_ec2_instances] at hok
    cases hc : collectRecords (instanceRecord region)
        (iresp.reservations.flatMap Reservation.instances) with
    | error e => rw [hc] at hok; cases hok
    | ok recs =>
      rw [hc] at hok
      cases hok
      rcases collectRecords_ok_mem hc row hrow with ⟨x, _, hfx⟩
      cases htags : x.tags with
      | none => rw [instanceRecord, htags] at hfx; cases hfx
      | some ts =>
        rw [instanceRecord, htags] at hfx
        cases hfx
        rfl
  · intro row hrow
    have hrow2 : row ∈ vresp.volumes.map (volumeRecord region) := hrow
    rcases List.mem_map.mp hrow2 with ⟨v, _, heq⟩
    rw [← heq]
    rfl
  · intro row hrow
    have hrow2 : row ∈ (describeSnapshotsEndpoint caller (some ["self"]) accessible).map
        (snapshotRecord region) := hrow
    rcases List.mem_map.mp hrow2 with ⟨s, _, heq⟩
    rw [← heq]
    rfl

/-- Witness for C10 at one instance, one volume and one snapshot. -/
theorem c10_region_field_equals_argument_witness :
    (∀ row ∈ (pdDataFrame [[("Name", Val.str "web-1"), ("Instance ID", Val.str "i-1"),
        ("Type", Val.str "t2.micro"), ("OS", Val.str "Linux/UNIX"),
        ("Region", Val.str "us-east-1"), ("State", Val.str "running")]]).rows,
      getField row "Region" = some (Val.str "us-east-1")) ∧
    (∀ row ∈ (list_ec2_volumes "us-east-1" ⟨[⟨"v-1", 8, "in-use"⟩]⟩).rows,
      getField row "Region" = some (Val.str "us-east-1")) ∧
    (∀ row ∈ (list_ec2_snapshots "111122223333" "us-east-1"
        [⟨"snap-1", 8, "completed", "111122223333"⟩]).rows,
      getField row "Region" = some (Val.str "us-east-1")) :=
  c10_region_field_equals_argument "us-east-1" "111122223333"
    ⟨[⟨[⟨some [⟨"Name", "web-1"⟩], "i-1", "t2.micro", "Linux/UNIX", "running"⟩]⟩]⟩
    ⟨[⟨"v-1", 8, "in-use"⟩]⟩ [⟨"snap-1", 8, "completed", "111122223333"⟩] _ rfl
